import Mathlib

/-!
Verification of the video-uploader package of this repository against its
natural-language specification.

The development shallowly embeds the Python sources:

* `config_manager.py` — configuration values become the inductive `CVal`
  (Python dicts are association lists with unique keys, in insertion order;
  Python floats are `PyFloat`: a rational value, or one of the non-finite
  floats `inf`, `-inf`, `nan`).  `deepMerge`, `setNestedGo`,
  `getNested`, `convert_env_value`, `defaultConfig`, `envMappings` and
  `ConfigManager.init` mirror the corresponding methods.  A Python statement
  that raises (`TypeError` while setting through a non-dict) is modelled by
  `Option`, with `none` for the raised exception.
* `video_validator.py` — `validate_video` and `validate_metadata` over an
  abstract file system record and a probe result (`Except` models the
  metadata-extraction call that can raise).  Number formatting inside error
  messages (Python `:.1f`) is modelled by `toString` on rationals; only the
  presence and prefix structure of the messages is used by theorems.
* `upload_video.py` — `upload_video` as a pure function returning the
  per-platform results, the list of gathered upload coroutines and the
  file-system effect trace of the temp-file handling; `mainOutput` models the
  printing / exit-code logic of `main` (printing a JSON array is modelled as
  returning the list of records it serializes).
* `youtube_uploader.py` / `instagram_uploader.py` — `format_description`,
  the chunked-upload retry loop `executeUploadWithProgress`, and the tenacity
  decorator `tenacityRun` (stop_after_attempt(3)) wrapping both upload entry
  points.

String manipulation is done on `List Char` with structural definitions
(`pySplitDot`, `pyLower`, `pyTake`, `hasSub`, ...) so that every definition
evaluates by kernel reduction; these follow Python string semantics on ASCII
input.
-/

/-- A Python float: a finite value (modelled as a rational) or one of the
non-finite floats `float('inf')`, `float('-inf')`, `float('nan')`. -/
inductive PyFloat where
  | finite : Rat → PyFloat
  | inf : PyFloat
  | negInf : PyFloat
  | nan : PyFloat

mutual
/-- Configuration values, mirroring the JSON/YAML-like values handled by
`config_manager.py`.  A Python dict is an association list (`EntryList`) with
unique keys in insertion order; Python `None` is `vNone`; Python floats are
`PyFloat` values.  `CList`/`EntryList` are mutual copies of lists so that the
deep merge below is a structural (kernel-reducible) recursion. -/
inductive CVal where
  | vNone : CVal
  | vBool : Bool → CVal
  | vInt : Int → CVal
  | vFloat : PyFloat → CVal
  | vStr : String → CVal
  | vList : CList → CVal
  | vDict : EntryList → CVal
inductive CList where
  | nil : CList
  | cons : CVal → CList → CList
inductive EntryList where
  | nil : EntryList
  | cons : String → CVal → EntryList → EntryList
end

/-- Build a `CList` from a list literal. -/
def listOf : List CVal → CList
  | [] => CList.nil
  | v :: rest => CList.cons v (listOf rest)

/-- Build an `EntryList` from a list literal. -/
def entriesOf : List (String × CVal) → EntryList
  | [] => EntryList.nil
  | (k, v) :: rest => EntryList.cons k v (entriesOf rest)

/-- The keys of a dict, in order. -/
def keysOf : EntryList → List String
  | EntryList.nil => []
  | EntryList.cons k _ rest => k :: keysOf rest

/-- Test whether a value is a dict (Python `isinstance(x, dict)`). -/
def isDictV : CVal → Bool
  | CVal.vDict _ => true
  | _ => false

/-- Lookup of a key in a Python dict (association list, first match). -/
def lookupEntry : EntryList → String → Option CVal
  | EntryList.nil, _ => none
  | EntryList.cons k v rest, key => if k = key then some v else lookupEntry rest key

/-- Assignment `d[key] = v` on a Python dict: an existing key keeps its
position, a new key is appended. -/
def setEntry : EntryList → String → CVal → EntryList
  | EntryList.nil, key, v => EntryList.cons key v EntryList.nil
  | EntryList.cons k w rest, key, v =>
      if k = key then EntryList.cons k v rest
      else EntryList.cons k w (setEntry rest key v)

mutual
/-- `ConfigManager._deep_merge`; only ever called on two dicts. -/
def deepMerge : CVal → CVal → CVal
  | CVal.vDict b, CVal.vDict u => CVal.vDict (deepMergeEntries b u)
  | _, u => u
/-- `ConfigManager._deep_merge` on the entry lists: for each update entry, if
both sides hold dicts they are merged recursively, otherwise the update value
replaces the base value. -/
def deepMergeEntries (b : EntryList) : EntryList → EntryList
  | EntryList.nil => b
  | EntryList.cons k v rest =>
      let nv : CVal :=
        match lookupEntry b k, v with
        | some (CVal.vDict bd), CVal.vDict vd => CVal.vDict (deepMergeEntries bd vd)
        | _, _ => v
      deepMergeEntries (setEntry b k nv) rest
end

/-- The Python line `current = current[key] if key in current else {}` used by
`_set_nested_value` while walking intermediate segments. -/
def childOf (d : EntryList) (k : String) : CVal :=
  match lookupEntry d k with
  | some c => c
  | none => CVal.vDict EntryList.nil

/-- `ConfigManager._set_nested_value` on an already split key path.  Walking
or assigning through a non-dict raises `TypeError` in Python, modelled by
`none`. -/
def setNestedGo : CVal → List String → CVal → Option CVal
  | CVal.vDict d, [k], v => some (CVal.vDict (setEntry d k v))
  | CVal.vDict d, k :: kr :: rest, v =>
      match setNestedGo (childOf d k) (kr :: rest) v with
      | some c2 => some (CVal.vDict (setEntry d k c2))
      | none => none
  | _, _, _ => none

/-- The traversal inside `ConfigManager.get`: walk the split key path, with a
missing key (`KeyError`) or a non-dict intermediate (`TypeError`) giving
`none`, which `get` replaces with the default. -/
def getNested : CVal → List String → Option CVal
  | c, [] => some c
  | CVal.vDict d, k :: rest =>
      (match lookupEntry d k with
       | some c => getNested c rest
       | none => none)
  | _, _ :: _ => none

/-- Python `s.split('.')` on a character list: separators delimit fields, an
empty string yields one empty field. -/
def splitChAux (sep : Char) : List Char → List Char → List (List Char)
  | [], acc => [acc.reverse]
  | c :: cs, acc =>
      if c = sep then acc.reverse :: splitChAux sep cs []
      else splitChAux sep cs (c :: acc)

/-- Python `key_path.split('.')` as used by `get` and `_set_nested_value`. -/
def pySplitDot (s : String) : List String :=
  (splitChAux '.' s.data []).map String.mk

/-- `ConfigManager.get` with an explicit default (Python default `None`). -/
def ConfigManager.get (cfg : CVal) (keyPath : String) (default : CVal := CVal.vNone) : CVal :=
  (getNested cfg (pySplitDot keyPath)).getD default

/-- `ConfigManager.set`; `none` models the `TypeError` raised when the path
runs through a non-dict value. -/
def ConfigManager.set (cfg : CVal) (keyPath : String) (v : CVal) : Option CVal :=
  setNestedGo cfg (pySplitDot keyPath) v

/-- The side condition of claim C5: every intermediate segment of the key path
is either absent from the current configuration or maps to a nested dict. -/
def settablePath : CVal → List String → Bool
  | CVal.vDict _, [_] => true
  | CVal.vDict d, k :: kr :: rest => settablePath (childOf d k) (kr :: rest)
  | _, _ => false

/-- ASCII lower-casing of one character. -/
def asciiLower (c : Char) : Char :=
  if 'A' ≤ c ∧ c ≤ 'Z' then Char.ofNat (c.toNat + 32) else c

/-- Python `s.lower()` on ASCII strings. -/
def pyLower (s : String) : String :=
  String.mk (s.data.map asciiLower)

/-- ASCII whitespace accepted by Python numeric conversion. -/
def isPyWs (c : Char) : Bool :=
  c = ' ' ∨ c = '\t' ∨ c = '\n' ∨ c = '\r' ∨ c = '\x0b' ∨ c = '\x0c'

/-- Strip surrounding whitespace, as Python `int`/`float` do. -/
def stripWs (cs : List Char) : List Char :=
  ((cs.dropWhile isPyWs).reverse.dropWhile isPyWs).reverse

/-- Parse a digit token: a nonempty digit sequence where single underscores
may appear between digits (PEP 515).  Returns the value and the digit count,
or `none` when the token is malformed or empty. -/
def digitTokGo (acc : Nat) (cnt : Nat) (lastD : Bool) : List Char → Option (Nat × Nat)
  | [] => if lastD then some (acc, cnt) else none
  | c :: cs =>
      if c.isDigit then digitTokGo (acc * 10 + (c.toNat - 48)) (cnt + 1) true cs
      else if c = '_' ∧ lastD then digitTokGo acc cnt false cs
      else none

/-- Value and digit count of a digit-with-underscores token. -/
def digitTok (cs : List Char) : Option (Nat × Nat) :=
  digitTokGo 0 0 false cs

/-- Character class of digit tokens. -/
def isDigitU (c : Char) : Bool :=
  c.isDigit || c = '_'

/-- Model of the Python builtin `int(s)` on ASCII strings: surrounding
whitespace, an optional sign, then a digit token. -/
def pyParseInt (s : String) : Option Int :=
  let cs := stripWs s.data
  match cs with
  | '+' :: rest => (digitTok rest).map (fun p => (p.1 : Int))
  | '-' :: rest => (digitTok rest).map (fun p => -(p.1 : Int))
  | _ => (digitTok cs).map (fun p => (p.1 : Int))

/-- Mantissa of a float literal: `digits`, `digits.`, `digits.digits` or
`.digits`; returns its rational value and the unconsumed rest. -/
def floatMantissa (cs : List Char) : Option (Rat × List Char) :=
  let sp := cs.span isDigitU
  match sp.2 with
  | '.' :: r2 =>
      let sf := r2.span isDigitU
      match sp.1, sf.1 with
      | [], [] => none
      | [], _ =>
          match digitTok sf.1 with
          | some (fv, fc) => some ((fv : Rat) / (10 : Rat) ^ fc, sf.2)
          | none => none
      | _, [] =>
          match digitTok sp.1 with
          | some (iv, _) => some ((iv : Rat), sf.2)
          | none => none
      | _, _ =>
          match digitTok sp.1, digitTok sf.1 with
          | some (iv, _), some (fv, fc) => some ((iv : Rat) + (fv : Rat) / (10 : Rat) ^ fc, sf.2)
          | _, _ => none
  | _ =>
      match sp.1 with
      | [] => none
      | _ =>
          match digitTok sp.1 with
          | some (iv, _) => some ((iv : Rat), sp.2)
          | none => none

/-- Exponent suffix of a float literal; the whole rest must be empty or a
well-formed `e`/`E` part. -/
def floatExponent : List Char → Option Int
  | [] => some 0
  | c :: r =>
      if c = 'e' ∨ c = 'E' then
        let sgr : Int × List Char :=
          match r with
          | '+' :: t => (1, t)
          | '-' :: t => (-1, t)
          | _ => (1, r)
        let se := sgr.2.span isDigitU
        match se.2 with
        | [] =>
            match digitTok se.1 with
            | some (v, _) => some (sgr.1 * (v : Int))
            | none => none
        | _ :: _ => none
      else none

/-- Model of the Python builtin `float(s)` on ASCII strings: surrounding
whitespace, an optional sign, then either one of the case-insensitive
non-finite literals `inf`, `infinity`, `nan` (the sign applies to infinities
and is absorbed by `nan`), or a finite mantissa with an optional exponent. -/
def pyParseFloat (s : String) : Option PyFloat :=
  let cs := stripWs s.data
  let sgr : Bool × List Char :=
    match cs with
    | '+' :: r => (false, r)
    | '-' :: r => (true, r)
    | _ => (false, cs)
  let low := sgr.2.map asciiLower
  if low = "inf".data ∨ low = "infinity".data then
    some (if sgr.1 then PyFloat.negInf else PyFloat.inf)
  else if low = "nan".data then some PyFloat.nan
  else
    match floatMantissa sgr.2 with
    | none => none
    | some (m, rest) =>
        match floatExponent rest with
        | none => none
        | some e =>
            some (PyFloat.finite (((if sgr.1 then -1 else 1) : Rat) * m * (10 : Rat) ^ e))

/-- `ConfigManager._convert_env_value`: try booleans, then `int`, then
`float`, and fall back to the raw string. -/
def convert_env_value (value : String) : CVal :=
  let low := pyLower value
  if low = "true" ∨ low = "false" then CVal.vBool (low == "true")
  else
    match pyParseInt value with
    | some n => CVal.vInt n
    | none =>
        match pyParseFloat value with
        | some q => CVal.vFloat q
        | none => CVal.vStr value

/-- `ConfigManager._load_defaults`, transcribed value for value. -/
def defaultEntries : EntryList :=
  entriesOf [
    ("youtube", CVal.vDict (entriesOf [
      ("credentials_path", CVal.vStr "data/youtube_credentials.json"),
      ("token_path", CVal.vStr "data/youtube_token.json"),
      ("category_id", CVal.vStr "22"),
      ("default_privacy", CVal.vStr "public"),
      ("default_tags", CVal.vList (listOf [CVal.vStr "Shorts", CVal.vStr "Video", CVal.vStr "Content"])),
      ("chunk_size", CVal.vInt (4 * 1024 * 1024)),
      ("max_retries", CVal.vInt 3)])),
    ("instagram", CVal.vDict (entriesOf [
      ("session_path", CVal.vStr "data/instagram_session.json"),
      ("max_retries", CVal.vInt 3),
      ("delay_between_uploads", CVal.vInt 30),
      ("default_hashtags", CVal.vList (listOf [CVal.vStr "#Reels", CVal.vStr "#Instagram", CVal.vStr "#Video"]))])),
    ("video", CVal.vDict (entriesOf [
      ("max_file_size", CVal.vInt (500 * 1024 * 1024)),
      ("supported_formats", CVal.vList (listOf [CVal.vStr ".mp4", CVal.vStr ".mov", CVal.vStr ".avi"])),
      ("max_duration_youtube", CVal.vInt 60),
      ("max_duration_instagram", CVal.vInt 90),
      ("min_duration", CVal.vFloat (PyFloat.finite 1)),
      ("preferred_aspect_ratio", CVal.vFloat (PyFloat.finite (9 / 16))),
      ("min_resolution", CVal.vList (listOf [CVal.vInt 720, CVal.vInt 1280])),
      ("max_resolution", CVal.vList (listOf [CVal.vInt 1080, CVal.vInt 1920]))])),
    ("upload", CVal.vDict (entriesOf [
      ("concurrent_uploads", CVal.vBool true),
      ("retry_delays", CVal.vList (listOf [CVal.vInt 1, CVal.vInt 2, CVal.vInt 4, CVal.vInt 8])),
      ("timeout", CVal.vInt 300),
      ("chunk_upload_timeout", CVal.vInt 60)])),
    ("logging", CVal.vDict (entriesOf [
      ("level", CVal.vStr "INFO"),
      ("file_path", CVal.vStr "uploads.log"),
      ("max_file_size", CVal.vStr "10 MB"),
      ("backup_count", CVal.vInt 5),
      ("format", CVal.vStr "\x7btime:YYYY-MM-DD HH:mm:ss\x7d | \x7blevel: <8\x7d | \x7bname\x7d:\x7bfunction\x7d:\x7bline\x7d - \x7bmessage\x7d")]))]

/-- The full default configuration dict. -/
def defaultConfig : CVal :=
  CVal.vDict defaultEntries

/-- The `env_mappings` table of `ConfigManager._load_environment`, in source
order. -/
def envMappings : List (String × String) := [
  ("YOUTUBE_CREDENTIALS_PATH", "youtube.credentials_path"),
  ("YOUTUBE_TOKEN_PATH", "youtube.token_path"),
  ("YOUTUBE_CATEGORY_ID", "youtube.category_id"),
  ("YOUTUBE_DEFAULT_PRIVACY", "youtube.default_privacy"),
  ("INSTAGRAM_USERNAME", "instagram.username"),
  ("INSTAGRAM_PASSWORD", "instagram.password"),
  ("INSTAGRAM_SESSION_PATH", "instagram.session_path"),
  ("MAX_FILE_SIZE", "video.max_file_size"),
  ("MAX_DURATION_YOUTUBE", "video.max_duration_youtube"),
  ("MAX_DURATION_INSTAGRAM", "video.max_duration_instagram"),
  ("UPLOAD_TIMEOUT", "upload.timeout"),
  ("MAX_RETRIES", "youtube.max_retries"),
  ("LOG_LEVEL", "logging.level"),
  ("LOG_FILE", "logging.file_path")]

/-- The loop of `ConfigManager._load_environment`: each set environment
variable is converted and written through `_set_nested_value`; a raised
`TypeError` aborts `__init__`, modelled by `none`. -/
def applyEnv (env : String → Option String) : CVal → List (String × String) → Option CVal
  | cfg, [] => some cfg
  | cfg, (var, key) :: rest =>
      match env var with
      | none => applyEnv env cfg rest
      | some s =>
          match setNestedGo cfg (pySplitDot key) (convert_env_value s) with
          | some cfg2 => applyEnv env cfg2 rest
          | none => none

/-- The configuration state after `_load_defaults` and `_load_config_file`:
a parsed dict file is deep-merged over the defaults; a missing file, or a
parse result that is not a dict (whose `.items()` call raises and is caught),
leaves the defaults unchanged. -/
def mergedConfig (file : Option CVal) : CVal :=
  match file with
  | some (CVal.vDict u) => deepMerge defaultConfig (CVal.vDict u)
  | _ => defaultConfig

/-- `ConfigManager.__init__`: defaults, then the optional config file, then
environment overrides.  `none` models `__init__` raising while applying an
environment override. -/
def ConfigManager.init (file : Option CVal) (env : String → Option String) : Option CVal :=
  applyEnv env (mergedConfig file) envMappings

/-- Abstract file-system facts about the path handed to
`VideoValidator.validate_video`: whether `os.path.exists` holds and the
`os.path.getsize` result. -/
structure FileInfo where
  present : Bool
  size : Nat

/-- Raw stream/format facts produced by the metadata probe (`ffprobe` or the
OpenCV fallback) before `_get_video_metadata_ffprobe` derives the aspect
ratio. -/
structure RawMeta where
  duration : Rat
  width : Nat
  height : Nat
  fps : Rat
  bitrate : Nat
  size : Nat
  codec : String

/-- The metadata dict built by `_get_video_metadata_ffprobe` /
`_get_basic_metadata`. -/
structure Metadata where
  duration : Rat
  width : Nat
  height : Nat
  aspect_ratio : Rat
  file_size : Nat
  format : String
  bitrate : Nat
  fps : Rat

/-- Both probe branches compute `aspect_ratio = width / height if height > 0
else 0`. -/
def mkMetadataOfRaw (raw : RawMeta) : Metadata :=
  { duration := raw.duration
    width := raw.width
    height := raw.height
    aspect_ratio := if 0 < raw.height then (raw.width : Rat) / (raw.height : Rat) else 0
    file_size := raw.size
    format := raw.codec
    bitrate := raw.bitrate
    fps := raw.fps }

/-- The `ValidationResult` dataclass of `video_validator.py`. -/
structure ValidationResult where
  is_valid : Bool
  error_message : Option String := none
  duration : Option Rat := none
  width : Option Nat := none
  height : Option Nat := none
  aspect_ratio : Option Rat := none
  file_size : Option Nat := none
  format : Option String := none
  bitrate : Option Nat := none
  fps : Option Rat := none

/-- `VideoValidator` class constants (platform limits). -/
def YOUTUBE_SHORTS_MAX_DURATION : Nat := 60

/-- Maximum Reels duration in seconds. -/
def INSTAGRAM_REELS_MAX_DURATION : Nat := 90

/-- Maximum file size in bytes. -/
def MAX_FILE_SIZE : Nat := 500 * 1024 * 1024

/-- Minimum width times height for vertical videos. -/
def MIN_RESOLUTION : Nat × Nat := (720, 1280)

/-- Maximum width times height for vertical videos. -/
def MAX_RESOLUTION : Nat × Nat := (1080, 1920)

/-- The 9:16 vertical aspect ratio constant. -/
def preferredAspectRatio : Rat := 9 / 16

/-- Accepted container formats. -/
def SUPPORTED_FORMATS : List String := [".mp4", ".mov", ".avi"]

/-- Minimum duration in seconds. -/
def MIN_DURATION : Rat := 1

/-- Index (from the front) of the last occurrence of a character. -/
def revFindIdx (c : Char) : List Char → Option Nat
  | [] => none
  | x :: xs =>
      match revFindIdx c xs with
      | some i => some (i + 1)
      | none => if x = c then some 0 else none

/-- The final path component, as `pathlib` computes it: split on `/` and take
the last nonempty part (`.` and `..` normalization is out of scope). -/
def pathName (p : String) : String :=
  let parts := (splitChAux '/' p.data []).filter (fun l => l ≠ [])
  match parts.getLast? with
  | some l => String.mk l
  | none => ""

/-- `pathlib.PurePath.suffix`: the part of the name from its last dot, when
that dot is neither the first nor the last character of the name. -/
def pathSuffix (p : String) : String :=
  let name := (pathName p).data
  match revFindIdx '.' name with
  | some i => if 0 < i ∧ i < name.length - 1 then String.mk (name.drop i) else ""
  | none => ""

/-- Python `'; '.join` and friends. -/
def joinWith (sep : String) : List String → String
  | [] => ""
  | [x] => x
  | x :: y :: rest => x ++ sep ++ joinWith sep (y :: rest)

/-- `VideoValidator._validate_metadata`: the error list accumulated from the
duration, resolution and aspect-ratio threshold checks, in source order.
Numeric formatting inside the messages approximates the Python `:.1f`
formatting by `toString`. -/
def validate_metadata (md : Metadata) : List String :=
  (if md.duration < MIN_DURATION then
    ["Video too short: " ++ toString md.duration ++ "s (min: " ++ toString MIN_DURATION ++ "s)"]
   else []) ++
  (if md.duration > (INSTAGRAM_REELS_MAX_DURATION : Rat) then
    ["Video too long: " ++ toString md.duration ++ "s (max: " ++
      toString INSTAGRAM_REELS_MAX_DURATION ++ "s for Reels, " ++
      toString YOUTUBE_SHORTS_MAX_DURATION ++ "s for Shorts)"]
   else []) ++
  (if 0 < md.width ∧ 0 < md.height then
    (if md.width < MIN_RESOLUTION.1 ∨ md.height < MIN_RESOLUTION.2 then
      ["Resolution too low: " ++ toString md.width ++ "x" ++ toString md.height ++
        " (min: " ++ toString MIN_RESOLUTION.1 ++ "x" ++ toString MIN_RESOLUTION.2 ++ ")"]
     else []) ++
    (if MAX_RESOLUTION.1 < md.width ∨ MAX_RESOLUTION.2 < md.height then
      ["Resolution too high: " ++ toString md.width ++ "x" ++ toString md.height ++
        " (max: " ++ toString MAX_RESOLUTION.1 ++ "x" ++ toString MAX_RESOLUTION.2 ++ ")"]
     else []) ++
    (if 0 < md.aspect_ratio then
      (if 1 < md.aspect_ratio then
        ["Video is landscape (" ++ toString md.aspect_ratio ++
          "). Vertical videos (9:16) work best for Shorts/Reels"]
       else if (1 : Rat) / 10 < |md.aspect_ratio - preferredAspectRatio| then
        ["Aspect ratio " ++ toString md.aspect_ratio ++
          " may not be optimal. Preferred: " ++ toString preferredAspectRatio ++ " (9:16)"]
       else [])
     else [])
   else [])

/-- `VideoValidator.validate_video`.  The metadata probe is an input: `ok`
carries the raw probe facts, `error` models the probe raising (which the
outer `except` turns into an invalid result).  The validator reads no
configuration: all thresholds are the class constants above. -/
def validate_video (video_path : String) (fs : FileInfo) (probe : Except String RawMeta) :
    ValidationResult :=
  if fs.present = false then
    { is_valid := false, error_message := some ("Video file not found: " ++ video_path) }
  else
    let file_ext := pyLower (pathSuffix video_path)
    if file_ext ∉ SUPPORTED_FORMATS then
      { is_valid := false
        error_message := some ("Unsupported format: " ++ file_ext ++ ". Supported: " ++
          joinWith ", " SUPPORTED_FORMATS) }
    else if MAX_FILE_SIZE < fs.size then
      { is_valid := false
        error_message := some ("File too large: " ++ toString fs.size ++
          " bytes. Max: " ++ toString MAX_FILE_SIZE ++ " bytes") }
    else if fs.size = 0 then
      { is_valid := false, error_message := some "Video file is empty" }
    else
      match probe with
      | Except.error e =>
          { is_valid := false, error_message := some ("Validation error: " ++ e) }
      | Except.ok raw =>
          let md := mkMetadataOfRaw raw
          let errs := validate_metadata md
          if errs = [] then
            { is_valid := true
              duration := some md.duration, width := some md.width, height := some md.height
              aspect_ratio := some md.aspect_ratio, file_size := some md.file_size
              format := some md.format, bitrate := some md.bitrate, fps := some md.fps }
          else
            { is_valid := false, error_message := some (joinWith "; " errs)
              duration := some md.duration, width := some md.width, height := some md.height
              aspect_ratio := some md.aspect_ratio, file_size := some md.file_size
              format := some md.format, bitrate := some md.bitrate, fps := some md.fps }

/-- The `UploadResult` dataclass of `upload_video.py`. -/
structure UploadResult where
  platform : String
  success : Bool
  video_id : Option String := none
  video_url : Option String := none
  error_message : Option String := none
  upload_duration : Rat := 0
deriving DecidableEq

/-- The `video_source` argument: raw bytes or a path-like value. -/
inductive VideoSource where
  | bytes : List Nat → VideoSource
  | path : String → VideoSource

/-- Observable file-system effects of `upload_video` itself (temp-file
handling around the upload). -/
inductive FileEffect where
  | createTemp : String → FileEffect
  | deleteTemp : String → FileEffect
deriving DecidableEq

/-- The upload coroutines that can be appended to `upload_tasks`. -/
inductive UTask where
  | youtube : UTask
  | instagram : UTask
deriving DecidableEq

/-- Everything observable about one `upload_video` call: the returned result
list, the coroutines handed to `asyncio.gather`, and the temp-file effect
trace. -/
structure UploadRun where
  results : List UploadResult
  gathered : List UTask
  effects : List FileEffect

/-- The path `upload_video` validates and uploads: the fresh temp file for a
bytes source, otherwise `str(video_source)`. -/
def sourcePath : VideoSource → String → String
  | VideoSource.bytes _, tempName => tempName
  | VideoSource.path p, _ => p

/-- Python string interpolation of an `Optional[str]`. -/
def optStr : Option String → String
  | some s => s
  | none => "None"

/-- The result-processing loop after `asyncio.gather(..., return_exceptions=
True)`: an exception raised by task `i` becomes a failure record labelled
`platforms[i]` (note: the index goes into the requested platform list, not
the task list). -/
def processGather (platforms : List String) (rs : List (Except String UploadResult)) :
    List UploadResult :=
  rs.enum.map fun p =>
    match p.2 with
    | Except.ok u => u
    | Except.error e =>
        { platform := platforms.getD p.1 "", success := false, error_message := some e }

/-- `VideoUploader.upload_video`.  Arguments beyond the source: the temp-file
name the `tempfile` module would produce, the file-system facts and probe
outcome seen by the validator, the optional `platforms` argument (Python
default `None` becomes `["youtube", "instagram"]`), and the outcome of each
platform coroutine (`Except.error` models the coroutine raising, handled by
`return_exceptions=True`).  Title/description/caption arguments are omitted:
they are passed through to the platform clients and never examined here. -/
def upload_video (source : VideoSource) (tempName : String) (fs : FileInfo)
    (probe : Except String RawMeta) (platformsArg : Option (List String))
    (ytOutcome igOutcome : Except String UploadResult) : UploadRun :=
  let platforms := platformsArg.getD ["youtube", "instagram"]
  let createEff : List FileEffect :=
    match source with
    | VideoSource.bytes _ => [FileEffect.createTemp tempName]
    | VideoSource.path _ => []
  let finallyEff : List FileEffect :=
    match source with
    | VideoSource.bytes _ => [FileEffect.deleteTemp tempName]
    | VideoSource.path _ => []
  let video_path := sourcePath source tempName
  let v := validate_video video_path fs probe
  if v.is_valid = false then
    { results := platforms.map fun platform =>
        { platform := platform, success := false
          error_message := some ("Video validation failed: " ++ optStr v.error_message) }
      gathered := []
      effects := createEff ++ finallyEff }
  else
    let upload_tasks : List UTask :=
      (if platforms.contains "youtube" then [UTask.youtube] else []) ++
      (if platforms.contains "instagram" then [UTask.instagram] else [])
    let gatherResults : List (Except String UploadResult) :=
      upload_tasks.map fun t =>
        match t with
        | UTask.youtube => ytOutcome
        | UTask.instagram => igOutcome
    { results := processGather platforms gatherResults
      gathered := upload_tasks
      effects := createEff ++ finallyEff }

/-- One element of the JSON array printed by `main`: exactly the six fields
serialized per result. -/
structure ResultRecord where
  platform : String
  success : Bool
  video_id : Option String
  video_url : Option String
  error_message : Option String
  upload_duration : Rat
deriving DecidableEq

/-- The dict built for one result in `main`. -/
def resultToRecord (r : UploadResult) : ResultRecord :=
  { platform := r.platform, success := r.success, video_id := r.video_id
    video_url := r.video_url, error_message := r.error_message
    upload_duration := r.upload_duration }

/-- What `main` prints on stdout: the per-result JSON array, or the single
`platform: all` failure record of the outer `except` branch. -/
inductive Printed where
  | resultsArray : List ResultRecord → Printed
  | allFailure : String → Printed
deriving DecidableEq

/-- The tail of `main` after `asyncio.run(...)`: serialize the results and
choose the exit code (`sys.exit(1)` on any failure, implicit exit 0
otherwise); the `except` branch prints one `platform: all` record and exits
1. -/
def mainOutput : Except String (List UploadResult) → Printed × Nat
  | Except.ok rs =>
      (Printed.resultsArray (rs.map resultToRecord),
       if rs.any (fun r => !r.success) then 1 else 0)
  | Except.error e => (Printed.allFailure e, 1)

/-- The command-line entry point composed with `upload_video` (the pure model
of `upload_video` never raises, so only the `ok` branch of `mainOutput` is
reachable from here). -/
def mainEntry (source : VideoSource) (tempName : String) (fs : FileInfo)
    (probe : Except String RawMeta) (platformsArg : Option (List String))
    (ytOutcome igOutcome : Except String UploadResult) : Printed × Nat :=
  mainOutput (Except.ok (upload_video source tempName fs probe platformsArg
    ytOutcome igOutcome).results)

/-- Whether `needle` is an initial segment of `hay`. -/
def startsWithL : List Char → List Char → Bool
  | [], _ => true
  | _ :: _, [] => false
  | a :: as, b :: bs => a == b && startsWithL as bs

/-- Python substring containment `needle in hay` on character lists. -/
def subOccursL (needle : List Char) : List Char → Bool
  | [] => startsWithL needle []
  | b :: bs => startsWithL needle (b :: bs) || subOccursL needle bs

/-- Python `needle in hay` on strings. -/
def hasSub (hay needle : String) : Bool :=
  subOccursL needle.data hay.data

/-- Python `s[:n]` on strings. -/
def pyTake (n : Nat) (s : String) : String :=
  String.mk (s.data.take n)

/-- `tag.replace(' ', '').replace('#', '')`: drop every space and hash
character. -/
def stripTagChars (t : String) : String :=
  String.mk (t.data.filter fun c => c ≠ ' ' && c ≠ '#')

/-- `YouTubeUploader._format_description` before the final 5000-character
truncation: the description, then (for a truthy tag list) the first ten tags
as cleaned hashtags joined by spaces, then `#Shorts` unless some spelling of
it is already present. -/
def formatFull (description : String) (tags : Option (List String)) : String :=
  let d1 :=
    match tags with
    | some ts =>
        if ts.isEmpty then description
        else description ++ "\n\n" ++
          joinWith " " ((ts.take 10).map fun tag => "#" ++ stripTagChars tag)
    | none => description
  if hasSub d1 "#Shorts" || hasSub d1 "#shorts" then d1 else d1 ++ "\n\n#Shorts"

/-- `YouTubeUploader._format_description`: the formatted description cut to
the YouTube limit of 5000 characters. -/
def format_description (description : String) (tags : Option (List String)) : String :=
  pyTake 5000 (formatFull description tags)

/-- One `insert_request.next_chunk()` outcome inside
`_execute_upload_with_progress`. -/
inductive ChunkOutcome where
  | progress : Nat → ChunkOutcome
  | done : String → ChunkOutcome
  | httpError : Nat → ChunkOutcome
  | failure : String → ChunkOutcome
deriving DecidableEq

/-- Errors escaping the chunk loop. -/
inductive UploadErr where
  | http : Nat → UploadErr
  | exn : String → UploadErr
  | noMoreEvents : UploadErr
deriving DecidableEq

/-- The statuses the chunk loop treats as retryable. -/
def RETRYABLE_STATUSES : List Nat := [500, 502, 503, 504]

/-- `YouTubeUploader._execute_upload_with_progress`: loop over `next_chunk`
outcomes; an `HttpError` with status 500/502/503/504 is re-attempted up to
`max_retries = 3` times (with exponential sleeps, invisible to this model);
any other error propagates.  The input list scripts the successive
`next_chunk` results; running out of scripted outcomes ends the model with
`noMoreEvents`. -/
def executeUploadWithProgress (retryCount : Nat) : List ChunkOutcome → Except UploadErr String
  | [] => Except.error UploadErr.noMoreEvents
  | ChunkOutcome.progress _ :: rest => executeUploadWithProgress retryCount rest
  | ChunkOutcome.done r :: _ => Except.ok r
  | ChunkOutcome.httpError c :: rest =>
      if c ∈ RETRYABLE_STATUSES then
        if retryCount < 3 then executeUploadWithProgress (retryCount + 1) rest
        else Except.error (UploadErr.http c)
      else Except.error (UploadErr.http c)
  | ChunkOutcome.failure m :: _ => Except.error (UploadErr.exn m)

/-- The tenacity decorator `retry(stop=stop_after_attempt(3),
wait=wait_exponential(...))`: run attempts (scripted as a list of outcomes)
until one succeeds or the attempt budget is exhausted; the final failure is
surfaced. -/
def tenacityRun (attemptsLeft : Nat) (attempts : List (Except String String)) :
    Except String String :=
  match attemptsLeft, attempts with
  | _, [] => Except.error "no attempt recorded"
  | 0, _ => Except.error "retry stopped"
  | 1, a :: _ => a
  | _ + 2, a :: rest =>
      match a with
      | Except.ok r => Except.ok r
      | Except.error _ => tenacityRun (attemptsLeft - 1) rest

/-- `YouTubeUploader.upload` seen through its `@retry` decorator. -/
def ytUpload (attempts : List (Except String String)) : Except String String :=
  tenacityRun 3 attempts

/-- `InstagramUploader.upload` seen through its `@retry` decorator. -/
def igUpload (attempts : List (Except String String)) : Except String String :=
  tenacityRun 3 attempts

/-! Helper lemmas about dict assignment and lookup. -/

theorem lookupEntry_setEntry_self : ∀ (d : EntryList) (k : String) (v : CVal),
    lookupEntry (setEntry d k v) k = some v
  | EntryList.nil, k, v => by simp [setEntry, lookupEntry]
  | EntryList.cons k2 w rest, k, v => by
      by_cases h : k2 = k
      · simp [setEntry, h, lookupEntry]
      · simp [setEntry, h, lookupEntry, lookupEntry_setEntry_self rest k v]

theorem lookupEntry_setEntry_ne : ∀ (d : EntryList) (k k1 : String) (v : CVal),
    k1 ≠ k → lookupEntry (setEntry d k v) k1 = lookupEntry d k1
  | EntryList.nil, k, k1, v, hne => by
      simp [setEntry, lookupEntry, Ne.symm hne]
  | EntryList.cons k2 w rest, k, k1, v, hne => by
      by_cases h : k2 = k
      · subst h
        simp [setEntry, lookupEntry, Ne.symm hne]
      · simp [setEntry, h, lookupEntry, lookupEntry_setEntry_ne rest k k1 v hne]

/-- After a successful `_set_nested_value`, `get` along the same key path
finds the assigned value. -/
theorem getNested_setNestedGo_self : ∀ (keys : List String) (cfg cfg2 : CVal) (v : CVal),
    setNestedGo cfg keys v = some cfg2 → getNested cfg2 keys = some v
  | [], cfg, cfg2, v, h => by cases cfg <;> simp [setNestedGo] at h
  | [k], cfg, cfg2, v, h => by
      cases cfg <;> simp [setNestedGo] at h
      subst h
      simp [getNested, lookupEntry_setEntry_self]
  | k :: kr :: rest, cfg, cfg2, v, h => by
      cases cfg <;> simp [setNestedGo] at h
      rename_i d
      rcases h2 : setNestedGo (childOf d k) (kr :: rest) v with _ | c2
      · rw [h2] at h
        simp at h
      · rw [h2] at h
        simp at h
        subst h
        simp [getNested, lookupEntry_setEntry_self]
        exact getNested_setNestedGo_self (kr :: rest) (childOf d k) c2 v h2

/-- On a settable path, `_set_nested_value` does not raise. -/
theorem setNestedGo_isSome_of_settable :
    ∀ (keys : List String) (cfg : CVal) (v : CVal),
    settablePath cfg keys = true → (setNestedGo cfg keys v).isSome = true
  | [], cfg, v, h => by cases cfg <;> simp [settablePath] at h
  | [k], cfg, v, h => by
      cases cfg <;> simp [settablePath] at h
      simp [setNestedGo]
  | k :: kr :: rest, cfg, v, h => by
      cases cfg <;> simp [settablePath] at h
      rename_i d
      have ih := setNestedGo_isSome_of_settable (kr :: rest) (childOf d k) v h
      rcases h2 : setNestedGo (childOf d k) (kr :: rest) v with _ | c2
      · rw [h2] at ih
        simp at ih
      · simp [setNestedGo, h2]

/-- A successful `_set_nested_value` along one two-segment path leaves `get`
along any other two-segment path unchanged. -/
theorem setNestedGo_get_preserved (cfg cfg2 : CVal) (a1 b1 a2 b2 : String) (v : CVal)
    (hne : [a1, b1] ≠ [a2, b2])
    (hset : setNestedGo cfg [a2, b2] v = some cfg2) :
    getNested cfg2 [a1, b1] = getNested cfg [a1, b1] := by
  cases cfg <;> simp [setNestedGo] at hset
  rename_i d
  rcases h2 : setNestedGo (childOf d a2) [b2] v with _ | c2
  · rw [h2] at hset
    simp at hset
  · rw [h2] at hset
    simp at hset
    subst hset
    rcases hchild : childOf d a2 with _ | _ | _ | _ | _ | _ | d2 <;>
      rw [hchild] at h2 <;> simp [setNestedGo] at h2
    subst h2
    by_cases ha : a1 = a2
    · subst ha
      have hb : b1 ≠ b2 := by
        intro hb
        exact hne (by rw [hb])
      simp [getNested, lookupEntry_setEntry_self]
      rw [lookupEntry_setEntry_ne d2 b2 b1 v hb]
      unfold childOf at hchild
      rcases hl : lookupEntry d a1 with _ | c
      · rw [hl] at hchild
        simp at hchild
        rw [← hchild]
        simp [getNested, lookupEntry]
      · rw [hl] at hchild
        simp at hchild
        subst hchild
        simp [getNested]
    · simp [getNested, lookupEntry_setEntry_ne d a2 a1 _ ha]

theorem applyEnv_append (env : String → Option String) :
    ∀ (l1 l2 : List (String × String)) (cfg : CVal),
    applyEnv env cfg (l1 ++ l2) = (applyEnv env cfg l1).bind (fun c => applyEnv env c l2)
  | [], l2, cfg => by simp [applyEnv]
  | (var, key) :: rest, l2, cfg => by
      simp only [List.cons_append, applyEnv]
      rcases henv : env var with _ | s <;> simp only [henv]
      · exact applyEnv_append env rest l2 cfg
      · rcases hset : setNestedGo cfg (pySplitDot key) (convert_env_value s) with _ | cfg2 <;>
          simp only [hset]
        · simp
        · exact applyEnv_append env rest l2 cfg2

/-- Applying environment overrides whose mapped two-segment key paths all
differ from `[a1, b1]` leaves `get` along `[a1, b1]` unchanged. -/
theorem applyEnv_get_preserved (env : String → Option String) (a1 b1 : String) :
    ∀ (maps : List (String × String)) (cfg cfg2 : CVal),
    (∀ p ∈ maps, ∃ a2 b2, pySplitDot p.2 = [a2, b2] ∧ [a1, b1] ≠ [a2, b2]) →
    applyEnv env cfg maps = some cfg2 →
    getNested cfg2 [a1, b1] = getNested cfg [a1, b1]
  | [], cfg, cfg2, _, h => by
      simp [applyEnv] at h
      subst h
      rfl
  | (var, key) :: rest, cfg, cfg2, hm, h => by
      rcases henv : env var with _ | s <;> simp only [applyEnv, henv] at h
      · exact applyEnv_get_preserved env a1 b1 rest cfg cfg2
          (fun p hp => hm p (List.mem_cons_of_mem _ hp)) h
      · rcases hset : setNestedGo cfg (pySplitDot key) (convert_env_value s) with _ | cfg1 <;>
          simp only [hset] at h
        · exact absurd h (by simp)
        · obtain ⟨a2, b2, hsplit, hne⟩ := hm (var, key) (List.mem_cons_self _ _)
          rw [hsplit] at hset
          calc getNested cfg2 [a1, b1]
              = getNested cfg1 [a1, b1] :=
                applyEnv_get_preserved env a1 b1 rest cfg1 cfg2
                  (fun p hp => hm p (List.mem_cons_of_mem _ hp)) h
            _ = getNested cfg [a1, b1] :=
                setNestedGo_get_preserved cfg cfg1 a1 b1 a2 b2 _ hne hset

theorem lookupEntry_eq_none_of_not_mem : ∀ (d : EntryList) (a : String),
    a ∉ keysOf d → lookupEntry d a = none
  | EntryList.nil, a, _ => rfl
  | EntryList.cons k v rest, a, h => by
      simp [keysOf] at h
      simp [lookupEntry, Ne.symm h.1, lookupEntry_eq_none_of_not_mem rest a h.2]

theorem deepMergeEntries_cons (b : EntryList) (k : String) (v : CVal) (rest : EntryList) :
    deepMergeEntries b (EntryList.cons k v rest) =
      deepMergeEntries (setEntry b k
        (match lookupEntry b k, v with
         | some (CVal.vDict bd), CVal.vDict vd => CVal.vDict (deepMergeEntries bd vd)
         | _, _ => v)) rest := by
  rw [deepMergeEntries.eq_def]

/-- What `_deep_merge` leaves at each key, for an update dict with unique
keys: keys absent from the update keep the base value, keys present replace
it, except that two dicts merge recursively. -/
theorem lookupEntry_deepMergeEntries : ∀ (u b : EntryList) (a : String),
    (keysOf u).Nodup →
    lookupEntry (deepMergeEntries b u) a =
      (match lookupEntry u a, lookupEntry b a with
       | none, r => r
       | some (CVal.vDict ud), some (CVal.vDict bd) => some (CVal.vDict (deepMergeEntries bd ud))
       | some v, _ => some v)
  | EntryList.nil, b, a, _ => by simp [deepMergeEntries.eq_1, lookupEntry]
  | EntryList.cons k v rest, b, a, hnd => by
      simp only [keysOf, List.nodup_cons] at hnd
      rw [deepMergeEntries_cons]
      rw [lookupEntry_deepMergeEntries rest _ a hnd.2]
      by_cases ha : a = k
      · subst ha
        rw [lookupEntry_eq_none_of_not_mem rest a hnd.1]
        rw [lookupEntry_setEntry_self]
        simp only [lookupEntry, if_pos rfl]
        rcases v with _ | _ | _ | _ | _ | _ | vd <;>
          rcases hb : lookupEntry b a with _ | (_ | _ | _ | _ | _ | _ | bd) <;> simp [hb]
      · rw [lookupEntry_setEntry_ne b k a _ ha]
        simp only [lookupEntry, if_neg (Ne.symm ha)]

theorem envMappings_two_segments : ∀ p ∈ envMappings, ∃ a b, pySplitDot p.2 = [a, b] := by
  intro p hp
  have hall : envMappings.all (fun q => (pySplitDot q.2).length == 2) = true := by decide
  have h2 : (pySplitDot p.2).length = 2 := by
    have := List.all_eq_true.mp hall p hp
    simpa using this
  exact List.length_eq_two.mp h2

theorem envMappings_splits_nodup : (envMappings.map (fun p => pySplitDot p.2)).Nodup := by
  decide

theorem deepMerge_dict (bEnt uEnt : EntryList) :
    deepMerge (CVal.vDict bEnt) (CVal.vDict uEnt) = CVal.vDict (deepMergeEntries bEnt uEnt) := by
  rw [deepMerge.eq_def]

theorem config_env_override_precedence_A
    (file : Option CVal) (env : String → Option String) (var key s : String) (cfg : CVal)
    (hmem : (var, key) ∈ envMappings) (henv : env var = some s)
    (hinit : ConfigManager.init file env = some cfg) :
    getNested cfg (pySplitDot key) = some (convert_env_value s) := by
  obtain ⟨pre, post, hsplit⟩ := List.append_of_mem hmem
  unfold ConfigManager.init at hinit
  rw [hsplit, applyEnv_append] at hinit
  rcases hpre : applyEnv env (mergedConfig file) pre with _ | cfg1 <;> rw [hpre] at hinit
  · simp at hinit
  · simp only [Option.some_bind] at hinit
    simp only [applyEnv, henv] at hinit
    rcases hset : setNestedGo cfg1 (pySplitDot key) (convert_env_value s) with _ | cfg2 <;>
      simp only [hset] at hinit
    · exact absurd hinit (by simp)
    · obtain ⟨a, b, hab0⟩ := envMappings_two_segments (var, key) hmem
      have hab : pySplitDot key = [a, b] := hab0
      have hpost : ∀ p ∈ post, ∃ a2 b2, pySplitDot p.2 = [a2, b2] ∧ [a, b] ≠ [a2, b2] := by
        intro p hp
        obtain ⟨a2, b2, h2⟩ := envMappings_two_segments p
          (by rw [hsplit]; exact List.mem_append_right _ (List.mem_cons_of_mem _ hp))
        refine ⟨a2, b2, h2, ?_⟩
        have hnd := envMappings_splits_nodup
        rw [hsplit, List.map_append, List.map_cons] at hnd
        have hnd2 := List.Nodup.of_append_right hnd
        have hnotmem : pySplitDot key ∉ List.map (fun p => pySplitDot p.2) post :=
          (List.nodup_cons.mp hnd2).1
        intro heq
        apply hnotmem
        have hpk : pySplitDot p.2 = pySplitDot key := by rw [h2, ← heq, hab]
        rw [← hpk]
        exact List.mem_map_of_mem _ hp
      rw [hab]
      rw [applyEnv_get_preserved env a b post cfg2 cfg hpost hinit]
      rw [hab] at hset
      exact getNested_setNestedGo_self [a, b] cfg1 cfg2 _ hset

theorem config_file_overrides_default_B
    (u ua : EntryList) (a b : String) (v : CVal)
    (hndu : (keysOf u).Nodup) (hndua : (keysOf ua).Nodup)
    (hlu : lookupEntry u a = some (CVal.vDict ua))
    (hlua : lookupEntry ua b = some v) (hnotd : isDictV v = false) :
    getNested (mergedConfig (some (CVal.vDict u))) [a, b] = some v := by
  simp only [mergedConfig, defaultConfig, deepMerge_dict]
  simp only [getNested]
  rw [lookupEntry_deepMergeEntries u defaultEntries a hndu, hlu]
  rcases hda : lookupEntry defaultEntries a with _ | (_ | _ | _ | _ | _ | _ | dad) <;>
    simp only [getNested]
  all_goals try (rw [hlua])
  rw [lookupEntry_deepMergeEntries ua dad b hndua, hlua]
  rcases v with _ | _ | _ | _ | _ | _ | vd <;>
    rcases hdb : lookupEntry dad b with _ | (_ | _ | _ | _ | _ | _ | db) <;>
    simp_all [isDictV, getNested]

/-- C4 (amended).  Configuration precedence is defaults, then config file,
then environment: (1) for every mapped environment variable that is set,
provided `__init__` completes without raising (the config file did not
replace a section on the mapped path by a non-dict, which raises
`TypeError`), `get` on the mapped dotted key returns the type-coerced value,
whatever the defaults and the config file contained; (2) a (non-dict) value
from the config file overrides the built-in default for its key. -/
theorem config_precedence_spec :
    (∀ (file : Option CVal) (env : String → Option String) (var key s : String) (cfg : CVal),
      (var, key) ∈ envMappings → env var = some s →
      ConfigManager.init file env = some cfg →
      getNested cfg (pySplitDot key) = some (convert_env_value s)) ∧
    (∀ (u ua : EntryList) (a b : String) (v : CVal),
      (keysOf u).Nodup → (keysOf ua).Nodup →
      lookupEntry u a = some (CVal.vDict ua) →
      lookupEntry ua b = some v → isDictV v = false →
      getNested (mergedConfig (some (CVal.vDict u))) [a, b] = some v) :=
  ⟨fun file env var key s cfg hmem henv hinit =>
      config_env_override_precedence_A file env var key s cfg hmem henv hinit,
   fun u ua a b v hndu hndua hlu hlua hnotd =>
      config_file_overrides_default_B u ua a b v hndu hndua hlu hlua hnotd⟩

/-- Witness for C4: a set `MAX_FILE_SIZE` wins over the default on
`video.max_file_size`, and a config-file value for `youtube.category_id`
overrides the default before environment loading. -/
theorem config_precedence_spec_witness :
    (∃ cfg, ConfigManager.init none
        (fun v => if v = "MAX_FILE_SIZE" then some "100" else none) = some cfg ∧
      getNested cfg (pySplitDot "video.max_file_size") = some (convert_env_value "100")) ∧
    getNested (mergedConfig (some (CVal.vDict (EntryList.cons "youtube"
        (CVal.vDict (EntryList.cons "category_id" (CVal.vStr "45") EntryList.nil))
        EntryList.nil)))) ["youtube", "category_id"] = some (CVal.vStr "45") := by
  constructor
  · have hs : (ConfigManager.init none
        (fun v => if v = "MAX_FILE_SIZE" then some "100" else none)).isSome = true := by decide
    obtain ⟨cfg, hcfg⟩ := Option.isSome_iff_exists.mp hs
    exact ⟨cfg, hcfg,
      config_precedence_spec.1 none _ "MAX_FILE_SIZE" "video.max_file_size" "100" cfg
        (by decide) rfl hcfg⟩
  · exact config_precedence_spec.2
      (EntryList.cons "youtube"
        (CVal.vDict (EntryList.cons "category_id" (CVal.vStr "45") EntryList.nil)) EntryList.nil)
      (EntryList.cons "category_id" (CVal.vStr "45") EntryList.nil)
      "youtube" "category_id" (CVal.vStr "45")
      (by decide) (by decide) rfl rfl rfl

/-- Counterexample for C4 as stated: with a config file whose `video` section
is the scalar `5` and `MAX_FILE_SIZE` set, `__init__` raises `TypeError`
(modelled as `none`), so `get` on `video.max_file_size` never returns the
coerced environment value: the claim does not hold for arbitrary config-file
contents. -/
theorem config_precedence_counterexample :
    ConfigManager.init (some (CVal.vDict (entriesOf [("video", CVal.vInt 5)])))
      (fun v => if v = "MAX_FILE_SIZE" then some "100" else none) = none := by
  rfl

/-- C5.  Dot-notation get/set round trip: on any key path whose intermediate
segments are absent or map to nested dicts in the current configuration,
`set` succeeds and a subsequent `get` returns the assigned value. -/
theorem config_set_get_roundtrip (d : EntryList) (path : String) (v default : CVal)
    (h : settablePath (CVal.vDict d) (pySplitDot path) = true) :
    ∃ cfg2, ConfigManager.set (CVal.vDict d) path v = some cfg2 ∧
      ConfigManager.get cfg2 path default = v := by
  have hs := setNestedGo_isSome_of_settable (pySplitDot path) (CVal.vDict d) v h
  obtain ⟨cfg2, hcfg2⟩ := Option.isSome_iff_exists.mp hs
  refine ⟨cfg2, hcfg2, ?_⟩
  unfold ConfigManager.get
  rw [getNested_setNestedGo_self (pySplitDot path) _ cfg2 v hcfg2]
  rfl

/-- Witness for C5 at the fresh path `a.b` in an empty configuration dict. -/
theorem config_set_get_roundtrip_witness :
    settablePath (CVal.vDict EntryList.nil) (pySplitDot "a.b") = true ∧
    ∃ cfg2, ConfigManager.set (CVal.vDict EntryList.nil) "a.b" (CVal.vInt 7) = some cfg2 ∧
      ConfigManager.get cfg2 "a.b" CVal.vNone = CVal.vInt 7 :=
  ⟨by decide, config_set_get_roundtrip EntryList.nil "a.b" (CVal.vInt 7) CVal.vNone (by decide)⟩

/-- C6.  `_convert_env_value` tries, in order: the booleans (on the
lower-cased string), the integer parse, the float parse (which also accepts
the non-finite literals `inf`, `infinity`, `nan`, signed and
case-insensitive), and finally returns the string unchanged. -/
theorem convert_env_value_spec (s : String) :
    convert_env_value s =
      (if pyLower s = "true" then CVal.vBool true
       else if pyLower s = "false" then CVal.vBool false
       else
         match pyParseInt s with
         | some n => CVal.vInt n
         | none =>
             match pyParseFloat s with
             | some q => CVal.vFloat q
             | none => CVal.vStr s) := by
  unfold convert_env_value
  by_cases h1 : pyLower s = "true"
  · simp [h1]
  · by_cases h2 : pyLower s = "false"
    · simp [h1, h2]
    · simp [h1, h2]

theorem validate_metadata_nil_iff (md : Metadata) :
    validate_metadata md = [] ↔
      (¬(md.duration < MIN_DURATION) ∧ ¬((INSTAGRAM_REELS_MAX_DURATION : Rat) < md.duration) ∧
       ((0 < md.width ∧ 0 < md.height) →
         (¬(md.width < MIN_RESOLUTION.1 ∨ md.height < MIN_RESOLUTION.2) ∧
          ¬(MAX_RESOLUTION.1 < md.width ∨ MAX_RESOLUTION.2 < md.height) ∧
          (0 < md.aspect_ratio →
            ¬(1 < md.aspect_ratio) ∧
            ¬((1 : Rat) / 10 < |md.aspect_ratio - preferredAspectRatio|))))) := by
  unfold validate_metadata
  split_ifs <;> simp_all

theorem ratio_pos_iff (w h : Nat) (hh : 0 < h) : (0 : Rat) < (w : Rat) / (h : Rat) ↔ 0 < w := by
  constructor
  · intro hlt
    rcases Nat.eq_zero_or_pos w with hw | hw
    · subst hw
      simp at hlt
    · exact hw
  · intro hw
    have hw2 : (0 : Rat) < (w : Rat) := by exact_mod_cast hw
    have hh2 : (0 : Rat) < (h : Rat) := by exact_mod_cast hh
    exact div_pos hw2 hh2

theorem validate_metadata_raw_iff (raw : RawMeta) :
    ¬(validate_metadata (mkMetadataOfRaw raw) = []) ↔
      (raw.duration < MIN_DURATION ∨ (INSTAGRAM_REELS_MAX_DURATION : Rat) < raw.duration ∨
       (0 < raw.width ∧ 0 < raw.height ∧
         (raw.width < MIN_RESOLUTION.1 ∨ raw.height < MIN_RESOLUTION.2 ∨
          MAX_RESOLUTION.1 < raw.width ∨ MAX_RESOLUTION.2 < raw.height)) ∨
       (0 < raw.width ∧ 0 < raw.height ∧
         (1 < (raw.width : Rat) / (raw.height : Rat) ∨
          (1 : Rat) / 10 < |(raw.width : Rat) / (raw.height : Rat) - preferredAspectRatio|))) := by
  rw [validate_metadata_nil_iff]
  have hmd : (mkMetadataOfRaw raw).duration = raw.duration := rfl
  have hmw : (mkMetadataOfRaw raw).width = raw.width := rfl
  have hmh : (mkMetadataOfRaw raw).height = raw.height := rfl
  rw [hmd, hmw, hmh]
  by_cases hh : 0 < raw.height
  · have har : (mkMetadataOfRaw raw).aspect_ratio = (raw.width : Rat) / (raw.height : Rat) := by
      simp [mkMetadataOfRaw, hh]
    rw [har, ratio_pos_iff raw.width raw.height hh]
    tauto
  · have har : (mkMetadataOfRaw raw).aspect_ratio = 0 := by
      simp [mkMetadataOfRaw, hh]
    rw [har]
    simp only [lt_self_iff_false, false_implies, and_true, hh, false_and, and_false, or_false]
    tauto

/-- C3.  With a successful metadata probe, `validate_video` marks the video
invalid exactly when one of the listed threshold conditions holds: missing
file, unsupported lower-cased extension, size above 500*1024*1024 or equal to
0, duration below 1.0 or above 90, a known (non-zero) resolution outside
720x1280 .. 1080x1920, or a known aspect ratio that is landscape or more than
0.1 away from 9/16.  All thresholds are the `VideoValidator` class constants
(`MAX_FILE_SIZE`, `MIN_RESOLUTION`, ... above); `validate_video` takes no
configuration argument, mirroring that `VideoValidator` never reads the
`ConfigManager` configuration. -/
theorem validate_video_invalid_iff (video_path : String) (fs : FileInfo) (raw : RawMeta) :
    (validate_video video_path fs (Except.ok raw)).is_valid = false ↔
      (fs.present = false ∨
       pyLower (pathSuffix video_path) ∉ SUPPORTED_FORMATS ∨
       MAX_FILE_SIZE < fs.size ∨
       fs.size = 0 ∨
       raw.duration < MIN_DURATION ∨
       (INSTAGRAM_REELS_MAX_DURATION : Rat) < raw.duration ∨
       (0 < raw.width ∧ 0 < raw.height ∧
         (raw.width < MIN_RESOLUTION.1 ∨ raw.height < MIN_RESOLUTION.2 ∨
          MAX_RESOLUTION.1 < raw.width ∨ MAX_RESOLUTION.2 < raw.height)) ∨
       (0 < raw.width ∧ 0 < raw.height ∧
         (1 < (raw.width : Rat) / (raw.height : Rat) ∨
          (1 : Rat) / 10 < |(raw.width : Rat) / (raw.height : Rat) - preferredAspectRatio|))) := by
  simp only [validate_video]
  by_cases h1 : fs.present = false
  · simp [h1]
  · by_cases h2 : pyLower (pathSuffix video_path) ∉ SUPPORTED_FORMATS
    · simp [h1, h2]
    · by_cases h3 : MAX_FILE_SIZE < fs.size
      · simp [h1, h2, h3]
      · by_cases h4 : fs.size = 0
        · simp [h1, h2, h3, h4]
        · by_cases herr : validate_metadata (mkMetadataOfRaw raw) = []
          · have hmeta : ¬(raw.duration < MIN_DURATION ∨
                (INSTAGRAM_REELS_MAX_DURATION : Rat) < raw.duration ∨
                (0 < raw.width ∧ 0 < raw.height ∧
                  (raw.width < MIN_RESOLUTION.1 ∨ raw.height < MIN_RESOLUTION.2 ∨
                   MAX_RESOLUTION.1 < raw.width ∨ MAX_RESOLUTION.2 < raw.height)) ∨
                (0 < raw.width ∧ 0 < raw.height ∧
                  (1 < (raw.width : Rat) / (raw.height : Rat) ∨
                   (1 : Rat) / 10 <
                     |(raw.width : Rat) / (raw.height : Rat) - preferredAspectRatio|))) :=
              fun hcon => (validate_metadata_raw_iff raw).mpr hcon herr
            push_neg at hmeta
            simp only [one_div] at hmeta
            simp [h1, h2, h3, h4, herr]
            tauto
          · have hmeta := (validate_metadata_raw_iff raw).mp herr
            simp only [one_div] at hmeta
            simp [h1, h2, h3, h4, herr]
            tauto

theorem validate_video_invalid_has_message (video_path : String) (fs : FileInfo)
    (probe : Except String RawMeta)
    (h : (validate_video video_path fs probe).is_valid = false) :
    ∃ e, (validate_video video_path fs probe).error_message = some e := by
  rcases probe with e | raw <;> simp only [validate_video] at h ⊢ <;> split_ifs at h ⊢ <;>
    simp_all

/-- C1.  When validation fails on the (non-empty) requested platform list,
`upload_video` returns exactly one failure record per requested platform,
each with `success = False` and an error message containing the message of
the validator, and gathers no upload coroutine. -/
theorem upload_video_validation_failure
    (source : VideoSource) (tempName : String) (fs : FileInfo) (probe : Except String RawMeta)
    (ps : List String) (yt ig : Except String UploadResult)
    (hps : ps ≠ [])
    (hinvalid : (validate_video (sourcePath source tempName) fs probe).is_valid = false) :
    ∃ e, (validate_video (sourcePath source tempName) fs probe).error_message = some e ∧
      (upload_video source tempName fs probe (some ps) yt ig).results =
        ps.map (fun platform =>
          { platform := platform, success := false
            error_message := some ("Video validation failed: " ++ e) : UploadResult }) ∧
      (∀ r ∈ (upload_video source tempName fs probe (some ps) yt ig).results,
        ∃ p1 p2, r.error_message = some (p1 ++ e ++ p2)) ∧
      (upload_video source tempName fs probe (some ps) yt ig).gathered = [] := by
  obtain ⟨e, he⟩ :=
    validate_video_invalid_has_message (sourcePath source tempName) fs probe hinvalid
  have hres : (upload_video source tempName fs probe (some ps) yt ig).results =
      ps.map (fun platform =>
        { platform := platform, success := false
          error_message := some ("Video validation failed: " ++ e) : UploadResult }) := by
    simp [upload_video, hinvalid, he, optStr]
  refine ⟨e, he, hres, ?_, ?_⟩
  · intro r hr
    rw [hres] at hr
    obtain ⟨platform, hp, rfl⟩ := List.mem_map.mp hr
    exact ⟨"Video validation failed: ", "", by simp⟩
  · simp [upload_video, hinvalid]

def fsSmall : FileInfo := ⟨true, 5⟩

def rawSample : RawMeta := ⟨30, 720, 1280, 30, 1000, 5, "h264"⟩

def fsGood : FileInfo := ⟨true, 1000⟩

def rawGood : RawMeta := ⟨30, 720, 1280, 30, 1000, 1000, "h264"⟩

def okYtResult : UploadResult := { platform := "youtube", success := true }

def okIgResult : UploadResult := { platform := "instagram", success := true }

/-- C9.  A bytes source creates one temp file and deletes it again on every
path (validation failure included, and whatever the platform outcomes); a
path source triggers no file creation or deletion by `upload_video` itself.
-/
theorem upload_video_temp_file_effects (source : VideoSource) (tempName : String) (fs : FileInfo)
    (probe : Except String RawMeta) (platformsArg : Option (List String))
    (yt ig : Except String UploadResult) :
    (upload_video source tempName fs probe platformsArg yt ig).effects =
      (match source with
       | VideoSource.bytes _ => [FileEffect.createTemp tempName, FileEffect.deleteTemp tempName]
       | VideoSource.path _ => []) := by
  rcases source with data | p <;> simp only [upload_video] <;> split <;> rfl

theorem validate_rawGood_valid :
    (validate_video "v.mp4" fsGood (Except.ok rawGood)).is_valid = true := by
  simp [validate_video, validate_metadata, mkMetadataOfRaw, pathSuffix, pathName, revFindIdx,
    splitChAux, pyLower, asciiLower, SUPPORTED_FORMATS, MAX_FILE_SIZE, MIN_DURATION,
    INSTAGRAM_REELS_MAX_DURATION, MIN_RESOLUTION, MAX_RESOLUTION, preferredAspectRatio,
    fsGood, rawGood]
  norm_num

/-- Counterexample for C8 as stated: a call with a valid video but
`platforms=["youtube"]` gathers exactly one coroutine, not two. -/
theorem upload_video_gather_counterexample :
    (validate_video "v.mp4" fsGood (Except.ok rawGood)).is_valid = true ∧
    (upload_video (VideoSource.path "v.mp4") "" fsGood (Except.ok rawGood)
      (some ["youtube"]) (Except.ok okYtResult) (Except.ok okIgResult)).gathered =
      [UTask.youtube] ∧
    ((upload_video (VideoSource.path "v.mp4") "" fsGood (Except.ok rawGood)
      (some ["youtube"]) (Except.ok okYtResult) (Except.ok okIgResult)).gathered).length ≠ 2 := by
  refine ⟨validate_rawGood_valid, ?_, ?_⟩
  · simp [upload_video, sourcePath, validate_rawGood_valid]
  · simp [upload_video, sourcePath, validate_rawGood_valid]

theorem processGather_length (platforms : List String) (rs : List (Except String UploadResult)) :
    (processGather platforms rs).length = rs.length := by
  simp [processGather]

/-- C8 (amended).  A validated upload gathers one coroutine per requested
supported platform — YouTube when `"youtube"` is requested, Instagram when
`"instagram"` is — returns one result per gathered coroutine, and gathers
exactly the two coroutines `[youtube, instagram]` whenever both platforms are
requested (in particular under the default platform list). -/
theorem upload_video_gather_per_platform
    (source : VideoSource) (tempName : String) (fs : FileInfo) (probe : Except String RawMeta)
    (platformsArg : Option (List String)) (yt ig : Except String UploadResult)
    (hvalid : (validate_video (sourcePath source tempName) fs probe).is_valid = true) :
    (upload_video source tempName fs probe platformsArg yt ig).gathered =
      ((if (platformsArg.getD ["youtube", "instagram"]).contains "youtube"
        then [UTask.youtube] else []) ++
       (if (platformsArg.getD ["youtube", "instagram"]).contains "instagram"
        then [UTask.instagram] else [])) ∧
    (upload_video source tempName fs probe platformsArg yt ig).results.length =
      (upload_video source tempName fs probe platformsArg yt ig).gathered.length ∧
    ("youtube" ∈ platformsArg.getD ["youtube", "instagram"] →
     "instagram" ∈ platformsArg.getD ["youtube", "instagram"] →
     (upload_video source tempName fs probe platformsArg yt ig).gathered =
       [UTask.youtube, UTask.instagram]) := by
  have hcond : ¬((validate_video (sourcePath source tempName) fs probe).is_valid = false) := by
    simp [hvalid]
  refine ⟨?_, ?_, ?_⟩
  · simp [upload_video, hcond]
  · simp [upload_video, hcond, processGather_length]
  · intro h1 h2
    simp [upload_video, hcond, h1, h2]

theorem mainOutput_ok_spec (rs : List UploadResult) :
    (mainOutput (Except.ok rs)).1 = Printed.resultsArray (rs.map resultToRecord) ∧
    ((mainOutput (Except.ok rs)).2 = 0 ↔ ∀ r ∈ rs, r.success = true) ∧
    ((mainOutput (Except.ok rs)).2 ≠ 0 ↔ ∃ r ∈ rs, r.success = false) := by
  refine ⟨rfl, ?_, ?_⟩ <;>
    cases h : rs.any (fun r => !r.success) <;>
    simp only [mainOutput, h] <;>
    simp_all [List.any_eq_true, List.any_eq_false]

/-- C2.  The entry point prints one record per platform result, with exactly
the six serialized fields (`resultToRecord`), and exits non-zero exactly when
some result failed: exit code 0 exactly when every result has
`success = True`.  (Printing the JSON array is modelled as returning the
record list it serializes.) -/
theorem main_entry_spec
    (source : VideoSource) (tempName : String) (fs : FileInfo) (probe : Except String RawMeta)
    (platformsArg : Option (List String)) (yt ig : Except String UploadResult) :
    (mainEntry source tempName fs probe platformsArg yt ig).1 =
      Printed.resultsArray
        ((upload_video source tempName fs probe platformsArg yt ig).results.map
          resultToRecord) ∧
    ((mainEntry source tempName fs probe platformsArg yt ig).2 = 0 ↔
      ∀ r ∈ (upload_video source tempName fs probe platformsArg yt ig).results,
        r.success = true) ∧
    ((mainEntry source tempName fs probe platformsArg yt ig).2 ≠ 0 ↔
      ∃ r ∈ (upload_video source tempName fs probe platformsArg yt ig).results,
        r.success = false) :=
  mainOutput_ok_spec (upload_video source tempName fs probe platformsArg yt ig).results

/-- Witness for C1 at a `.txt` file with both platforms requested. -/
theorem upload_video_validation_failure_witness :
    ∃ e, (validate_video (sourcePath (VideoSource.path "v.txt") "") fsSmall
        (Except.ok rawSample)).error_message = some e ∧
      (upload_video (VideoSource.path "v.txt") "" fsSmall (Except.ok rawSample)
        (some ["youtube", "instagram"])
        (Except.ok okYtResult) (Except.ok okIgResult)).results =
        ["youtube", "instagram"].map (fun platform =>
          { platform := platform, success := false
            error_message := some ("Video validation failed: " ++ e) : UploadResult }) ∧
      (∀ r ∈ (upload_video (VideoSource.path "v.txt") "" fsSmall (Except.ok rawSample)
          (some ["youtube", "instagram"])
          (Except.ok okYtResult) (Except.ok okIgResult)).results,
        ∃ p1 p2, r.error_message = some (p1 ++ e ++ p2)) ∧
      (upload_video (VideoSource.path "v.txt") "" fsSmall (Except.ok rawSample)
        (some ["youtube", "instagram"])
        (Except.ok okYtResult) (Except.ok okIgResult)).gathered = [] :=
  upload_video_validation_failure (VideoSource.path "v.txt") "" fsSmall (Except.ok rawSample)
    ["youtube", "instagram"] (Except.ok okYtResult) (Except.ok okIgResult)
    (by decide) (by decide)

/-- Witness for C8 (amended) at a valid video with both platforms requested.
-/
theorem upload_video_gather_per_platform_witness :
    (upload_video (VideoSource.path "v.mp4") "" fsGood (Except.ok rawGood)
      (some ["youtube", "instagram"])
      (Except.ok okYtResult) (Except.ok okIgResult)).gathered =
      [UTask.youtube, UTask.instagram] ∧
    (upload_video (VideoSource.path "v.mp4") "" fsGood (Except.ok rawGood)
      (some ["youtube", "instagram"])
      (Except.ok okYtResult) (Except.ok okIgResult)).results.length =
    (upload_video (VideoSource.path "v.mp4") "" fsGood (Except.ok rawGood)
      (some ["youtube", "instagram"])
      (Except.ok okYtResult) (Except.ok okIgResult)).gathered.length := by
  have h := upload_video_gather_per_platform (VideoSource.path "v.mp4") "" fsGood
    (Except.ok rawGood) (some ["youtube", "instagram"]) (Except.ok okYtResult)
    (Except.ok okIgResult) validate_rawGood_valid
  exact ⟨h.2.2 (by decide) (by decide), h.2.1⟩

/-- Counterexample for C7 as stated: the chunk loop of
`_execute_upload_with_progress` re-attempts a failed `next_chunk` call (an
HTTP 503) on its own, outside the tenacity decorator, and the upload then
succeeds instead of propagating the error. -/
theorem chunk_retry_counterexample :
    executeUploadWithProgress 0 [ChunkOutcome.httpError 503, ChunkOutcome.done "resp"] =
      Except.ok "resp" ∧
    executeUploadWithProgress 0 [ChunkOutcome.httpError 503, ChunkOutcome.done "resp"] ≠
      Except.error (UploadErr.http 503) := by
  have he : executeUploadWithProgress 0 [ChunkOutcome.httpError 503, ChunkOutcome.done "resp"] =
      Except.ok "resp" := rfl
  exact ⟨he, by rw [he]; simp⟩

/-- C7 (amended).  The retry behaviour of the package: the exponential-backoff
decorator (3 attempts) wraps both upload entry points uniformly, and, in
addition, the YouTube chunk loop `_execute_upload_with_progress` re-attempts a
`next_chunk` call that raised `HttpError` with status 500, 502, 503 or 504,
up to 3 times; any other error, or a retryable error past the third retry,
propagates immediately. -/
theorem retry_behaviour_spec :
    (∀ attempts, ytUpload attempts = tenacityRun 3 attempts) ∧
    (∀ attempts, igUpload attempts = tenacityRun 3 attempts) ∧
    (∀ (e : String) (rest : List (Except String String)) (n : Nat),
      tenacityRun (n + 2) (Except.error e :: rest) = tenacityRun (n + 1) rest) ∧
    (∀ (a : Except String String) (rest : List (Except String String)),
      tenacityRun 1 (a :: rest) = a) ∧
    (∀ (rc c : Nat) (rest : List ChunkOutcome), c ∈ RETRYABLE_STATUSES → rc < 3 →
      executeUploadWithProgress rc (ChunkOutcome.httpError c :: rest) =
        executeUploadWithProgress (rc + 1) rest) ∧
    (∀ (rc c : Nat) (rest : List ChunkOutcome), c ∉ RETRYABLE_STATUSES →
      executeUploadWithProgress rc (ChunkOutcome.httpError c :: rest) =
        Except.error (UploadErr.http c)) ∧
    (∀ (rc c : Nat) (rest : List ChunkOutcome), 3 ≤ rc →
      executeUploadWithProgress rc (ChunkOutcome.httpError c :: rest) =
        Except.error (UploadErr.http c)) := by
  refine ⟨fun _ => rfl, fun _ => rfl, fun _ _ _ => rfl, fun _ _ => rfl, ?_, ?_, ?_⟩
  · intro rc c rest h1 h2
    simp [executeUploadWithProgress, h1, h2]
  · intro rc c rest h1
    simp [executeUploadWithProgress, h1]
  · intro rc c rest h1
    by_cases hc : c ∈ RETRYABLE_STATUSES <;>
      simp [executeUploadWithProgress, hc, Nat.not_lt.mpr h1]

/-- Witness for C7 (amended) at concrete chunk outcomes and attempts. -/
theorem retry_behaviour_spec_witness :
    executeUploadWithProgress 0 (ChunkOutcome.httpError 500 :: [ChunkOutcome.done "r"]) =
      executeUploadWithProgress 1 [ChunkOutcome.done "r"] ∧
    executeUploadWithProgress 0 [ChunkOutcome.httpError 404] =
      Except.error (UploadErr.http 404) ∧
    executeUploadWithProgress 3 [ChunkOutcome.httpError 500] =
      Except.error (UploadErr.http 500) ∧
    tenacityRun 3 (Except.error "boom" :: [Except.ok "r"]) = tenacityRun 2 [Except.ok "r"] := by
  refine ⟨?_, ?_, ?_, ?_⟩
  · exact retry_behaviour_spec.2.2.2.2.1 0 500 [ChunkOutcome.done "r"] (by decide) (by decide)
  · exact retry_behaviour_spec.2.2.2.2.2.1 0 404 [] (by decide)
  · exact retry_behaviour_spec.2.2.2.2.2.2 3 500 [] (by decide)
  · exact retry_behaviour_spec.2.2.1 "boom" [Except.ok "r"] 1

theorem subOccursL_append_of_right (nd h2 : List Char) (hocc : subOccursL nd h2 = true) :
    ∀ h1, subOccursL nd (h1 ++ h2) = true
  | [] => hocc
  | c :: cs => by
      simp only [List.cons_append, subOccursL, Bool.or_eq_true]
      exact Or.inr (subOccursL_append_of_right nd h2 hocc cs)

theorem subOccursL_hash_replicate (nd tl : List Char) :
    ∀ n, subOccursL ('#' :: nd) (List.replicate n 'a' ++ tl) = subOccursL ('#' :: nd) tl
  | 0 => by simp
  | n + 1 => by
      rw [List.replicate_succ, List.cons_append]
      show (startsWithL ('#' :: nd) ('a' :: (List.replicate n 'a' ++ tl)) ||
        subOccursL ('#' :: nd) (List.replicate n 'a' ++ tl)) = subOccursL ('#' :: nd) tl
      rw [subOccursL_hash_replicate nd tl n]
      simp [startsWithL]

theorem string_data_append (a b : String) : (a ++ b).data = a.data ++ b.data := rfl

theorem hasSub_replicate_a (needle : String) (nd tl : List Char)
    (h : needle.data = '#' :: nd) :
    hasSub (String.mk (List.replicate 4995 'a' ++ tl)) needle = subOccursL ('#' :: nd) tl := by
  simp only [hasSub, h]
  exact subOccursL_hash_replicate nd tl 4995

/-- Counterexample for C10 as stated: for a 4995-character description the
`#Shorts` tag is appended and then cut off by the final 5000-character
truncation, so the returned string contains neither `#Shorts` nor
`#shorts`. -/
theorem format_description_truncation_counterexample :
    hasSub (format_description (String.mk (List.replicate 4995 'a')) none) "#Shorts" = false ∧
    hasSub (format_description (String.mk (List.replicate 4995 'a')) none) "#shorts" = false := by
  have hmk : String.mk (List.replicate 4995 'a') =
      String.mk (List.replicate 4995 'a' ++ []) := by rw [List.append_nil]
  have h1 : hasSub (String.mk (List.replicate 4995 'a')) "#Shorts" = false := by
    rw [hmk, hasSub_replicate_a "#Shorts" "Shorts".data [] rfl]
    rfl
  have h2 : hasSub (String.mk (List.replicate 4995 'a')) "#shorts" = false := by
    rw [hmk, hasSub_replicate_a "#shorts" "shorts".data [] rfl]
    rfl
  have hfull : formatFull (String.mk (List.replicate 4995 'a')) none =
      String.mk (List.replicate 4995 'a') ++ "\n\n#Shorts" := by
    simp only [formatFull, h1, h2]
    rfl
  have hd : (String.mk (List.replicate 4995 'a') ++ "\n\n#Shorts").data =
      List.replicate 4995 'a' ++ "\n\n#Shorts".data := rfl
  have hlen : (List.replicate 4995 'a').length ≤ 5000 := by
    rw [List.length_replicate]
    norm_num
  have htake : (List.replicate 4995 'a' ++ "\n\n#Shorts".data).take 5000 =
      List.replicate 4995 'a' ++ "\n\n#Sh".data := by
    rw [List.take_append_eq_append_take, List.length_replicate,
      List.take_of_length_le hlen]
    norm_num
  have hkey : format_description (String.mk (List.replicate 4995 'a')) none =
      String.mk (List.replicate 4995 'a' ++ "\n\n#Sh".data) := by
    simp only [format_description, hfull, pyTake, hd, htake]
  constructor
  · rw [hkey, hasSub_replicate_a "#Shorts" "Shorts".data "\n\n#Sh".data rfl]
    rfl
  · rw [hkey, hasSub_replicate_a "#shorts" "shorts".data "\n\n#Sh".data rfl]
    rfl

theorem hasSub_append_right (a b n : String) (h : hasSub b n = true) :
    hasSub (a ++ b) n = true := by
  simp only [hasSub, string_data_append]
  exact subOccursL_append_of_right n.data b.data h a.data

theorem shorts_branch_hasSub (x : String) :
    hasSub (if hasSub x "#Shorts" || hasSub x "#shorts" then x else x ++ "\n\n#Shorts")
        "#Shorts" = true ∨
    hasSub (if hasSub x "#Shorts" || hasSub x "#shorts" then x else x ++ "\n\n#Shorts")
        "#shorts" = true := by
  by_cases h1 : hasSub x "#Shorts" = true
  · simp [h1]
  · by_cases h2 : hasSub x "#shorts" = true
    · simp [h1, h2]
    · simp only [h1, h2]
      simp only [Bool.false_or, Bool.or_false]
      left
      refine hasSub_append_right x "\n\n#Shorts" "#Shorts" ?_
      rfl

theorem formatFull_hasShorts (d : String) (tags : Option (List String)) :
    hasSub (formatFull d tags) "#Shorts" = true ∨
    hasSub (formatFull d tags) "#shorts" = true := by
  unfold formatFull
  exact shorts_branch_hasSub _

theorem string_mk_data (s : String) : String.mk s.data = s := rfl

theorem stripTagChars_idem (t : String) :
    stripTagChars (stripTagChars t) = stripTagChars t := by
  simp [stripTagChars, List.filter_filter]

theorem take10_isEmpty (ts : List String) : (ts.take 10).isEmpty = ts.isEmpty := by
  cases ts <;> rfl

/-- C10 (amended).  `_format_description` returns at most 5000 characters; it
contains `#Shorts` or `#shorts` (appending `#Shorts` when neither is present)
whenever the pre-truncation text fits in the 5000-character limit; and the
hashtag block uses at most the first 10 tags, each with spaces and hash
characters stripped (so the output is invariant under truncating the tag list
to 10 and under pre-stripping each tag). -/
theorem format_description_spec (d : String) (tags : Option (List String)) :
    (format_description d tags).length ≤ 5000 ∧
    ((formatFull d tags).length ≤ 5000 →
      (hasSub (format_description d tags) "#Shorts" = true ∨
       hasSub (format_description d tags) "#shorts" = true)) ∧
    (∀ ts : List String,
      format_description d (some ts) = format_description d (some (ts.take 10))) ∧
    (∀ ts : List String,
      format_description d (some ts) = format_description d (some (ts.map stripTagChars))) := by
  refine ⟨?_, ?_, ?_, ?_⟩
  · show ((formatFull d tags).data.take 5000).length ≤ 5000
    rw [List.length_take]
    exact min_le_left _ _
  · intro hlen
    have hlen2 : (formatFull d tags).data.length ≤ 5000 := hlen
    have heq : format_description d tags = formatFull d tags := by
      simp only [format_description, pyTake, List.take_of_length_le hlen2, string_mk_data]
    rw [heq]
    exact formatFull_hasShorts d tags
  · intro ts
    simp only [format_description, formatFull, take10_isEmpty, List.take_take]
    norm_num
  · intro ts
    simp only [format_description, formatFull, List.map_take, List.map_map, List.isEmpty_eq_true,
      List.map_eq_nil_iff]
    have hfun : ((fun tag => "#" ++ stripTagChars tag) ∘ stripTagChars) =
        (fun tag : String => "#" ++ stripTagChars tag) := by
      funext t
      simp [Function.comp, stripTagChars_idem]
    rw [hfun]

/-- Witness for C10 (amended) on a short description and small tag lists. -/
theorem format_description_spec_witness :
    (format_description "hello" none).length ≤ 5000 ∧
    (hasSub (format_description "hello" none) "#Shorts" = true ∨
     hasSub (format_description "hello" none) "#shorts" = true) ∧
    format_description "hello" (some ["a", "b"]) =
      format_description "hello" (some (["a", "b"].take 10)) ∧
    format_description "hello" (some ["a b", "#c"]) =
      format_description "hello" (some (["a b", "#c"].map stripTagChars)) := by
  refine ⟨(format_description_spec "hello" none).1,
    (format_description_spec "hello" none).2.1 ?_,
    (format_description_spec "hello" (some ["a", "b"])).2.2.1 ["a", "b"],
    (format_description_spec "hello" (some ["a b", "#c"])).2.2.2 ["a b", "#c"]⟩
  decide
